import Mathlib

/-!
Verification of the twitter insight agent (src/twitter_insight_agent.py).

The file embeds the two components that carry all decision structure:

* `generate_insights` (source lines 132-224): prompt construction and the
  retry-with-exponential-backoff loop around the completion endpoint.
  The endpoint is modelled as a function from the attempt index to the
  outcome of that attempt (`CompletionOutcome`); the call returns a
  `GenTrace` recording the returned string, the sleeps performed and the
  request prompts sent (one per attempt actually made).

* `get_user_tweets` (source lines 35-130): feed fetch with failure
  classification.  The tweepy client is modelled as a `TwitterClient`
  whose two operations return a `FetchStep`, covering the normal return
  value and each exception class the source catches.
-/

/-- Outcome of one attempt against the completion endpoint: an HTTP
response carrying its status code, the choice texts of its JSON body and
its raw body text; a network timeout (`requests.exceptions.Timeout`); a
connection error (`requests.exceptions.RequestException`); or any other
exception raised during the attempt. -/
inductive CompletionOutcome where
  | httpResp (status : Nat) (choices : List String) (body : String)
  | timeout
  | connError (msg : String)
  | otherExc (msg : String)
deriving DecidableEq, Repr

/-- Observable trace of one `generate_insights` call: the string returned,
the backoff sleeps performed (in order, in time units) and the request
prompts posted to the completion endpoint, one per attempt made. -/
structure GenTrace where
  output : String
  sleeps : List Nat
  requests : List String
deriving DecidableEq, Repr

/-- Source line 147:
tweets_text = "\n".join([f"Tweet \x7bi+1\x7d: \x7btweet\x7d" for i, tweet in enumerate(tweets)]). -/
def tweets_text (tweets : List String) : String :=
  String.intercalate "\n"
    (tweets.enum.map (fun p => "Tweet " ++ toString (p.1 + 1) ++ ": " ++ p.2))

/-- Source lines 150-160: the prompt f-string built by generate_insights. -/
def build_prompt (tweets : List String) (tweet_count : Nat) : String :=
  "Analyze the following " ++ toString tweet_count ++
  " tweets and generate exactly 3 concise, actionable insights. Focus on sentiment, main topics, trends, or notable patterns. Each insight must be unique and specific to the content provided. Format your response as a numbered list (1-3).\n\nTweets to analyze:\n" ++
  tweets_text tweets ++
  "\n\nRequirements:\n- Each insight should be 1-2 sentences\n- Focus on actionable observations\n- Avoid vague statements\n- Be specific to the tweet content\n- Number each insight (1, 2, 3)"

/-- Source lines 166-224: the body of `for attempt in range(max_retries)`.
`fuel` is the number of loop iterations still available
(`max_retries - attempt`); the fuel-0 result is the fall-through return
after the loop (source line 224). -/
def genLoop (ep : Nat → CompletionOutcome) (prompt : String) (base_delay : Nat) :
    Nat → Nat → GenTrace
  | _, 0 =>
    ⟨"Failed to generate insights after multiple attempts. Please try again later.", [], []⟩
  | attempt, fuel + 1 =>
    match ep attempt with
    | .httpResp status choices body =>
      if status = 200 then
        -- result['choices'][0]['text'].strip(); an empty choice list raises
        -- IndexError, caught by the final `except Exception` handler
        match choices with
        | [] => ⟨"Error generating insights: list index out of range", [], [prompt]⟩
        | t :: _ => ⟨t.trim, [], [prompt]⟩
      else if status = 429 then
        if 0 < fuel then
          let d := base_delay * 2 ^ attempt
          let rest := genLoop ep prompt base_delay (attempt + 1) fuel
          ⟨rest.output, d :: rest.sleeps, prompt :: rest.requests⟩
        else
          ⟨"AI service is currently busy. Please try again in a few minutes.", [], [prompt]⟩
      else
        ⟨"Error generating insights: " ++ toString status ++ " - " ++ body, [], [prompt]⟩
    | .timeout =>
      if 0 < fuel then
        let d := base_delay * 2 ^ attempt
        let rest := genLoop ep prompt base_delay (attempt + 1) fuel
        ⟨rest.output, d :: rest.sleeps, prompt :: rest.requests⟩
      else
        ⟨"Request timed out. Please try again.", [], [prompt]⟩
    | .connError msg =>
      if 0 < fuel then
        let d := base_delay * 2 ^ attempt
        let rest := genLoop ep prompt base_delay (attempt + 1) fuel
        ⟨rest.output, d :: rest.sleeps, prompt :: rest.requests⟩
      else
        ⟨"Error connecting to AI service: " ++ msg, [], [prompt]⟩
    | .otherExc msg =>
      ⟨"Error generating insights: " ++ msg, [], [prompt]⟩

/-- Source lines 132-224: TwitterInsightAgent.generate_insights.
max_retries = 3, base_delay = 1 as in source lines 163-164. -/
def generate_insights (ep : Nat → CompletionOutcome) (tweets : List String)
    (tweet_count : Nat) : GenTrace :=
  if tweets.isEmpty then ⟨"No tweets available for analysis.", [], []⟩
  else
    let max_retries := 3
    let base_delay := 1
    genLoop ep (build_prompt tweets tweet_count) base_delay 0 max_retries

/-- Does `pat` occur at the start of `s`? -/
def charsStartsWith : List Char → List Char → Bool
  | _, [] => true
  | [], _ :: _ => false
  | c :: s, p :: ps => c = p && charsStartsWith s ps

/-- Does `pat` occur anywhere in the character list? -/
def charsContains (pat : List Char) : List Char → Bool
  | [] => charsStartsWith [] pat
  | c :: t => charsStartsWith (c :: t) pat || charsContains pat t

/-- Substring test used to state the "message mentions ..." claims. -/
def strContains (s pat : String) : Bool :=
  charsContains pat.data s.data

/-- The user record returned by the twitter client.  `protectedFlag` models
`hasattr(user_info, 'protected') and user_info.protected`: `none` means the
attribute is absent, `some b` the attribute with truth value `b`. -/
structure UserInfo where
  id : Nat
  protectedFlag : Option Bool
deriving DecidableEq, Repr

/-- Outcome of one twitter-client call: a normal return value, or one of
the exception classes caught by get_user_tweets.  `tooManyRequests` carries
the x-rate-limit-reset header already converted by `int()` (`none` when the
header is missing, and the surrounding `if reset_time:` also discards an
empty header string before conversion). -/
inductive FetchStep (α : Type) where
  | ok (a : α)
  | tooManyRequests (reset : Option Int)
  | unauthorized
  | forbidden
  | excn (msg : String)

/-- The tweepy client: `get_user` takes the cleaned username and returns
`response.data` (`none` when the user does not resolve); `get_users_tweets`
takes the user id and max_results and returns `response.data` (`none` when
the account has no tweets). -/
structure TwitterClient where
  get_user : String → FetchStep (Option UserInfo)
  get_users_tweets : Nat → Nat → FetchStep (Option (List String))

/-- The dict returned by get_user_tweets.  `error` and `tweet_count` are
`Option` because the source includes those keys only on some paths. -/
structure FetchResult where
  success : Bool
  error : Option String
  tweets : List String
  user_info : Option UserInfo
  tweet_count : Option Nat

/-- Source line 47: username.lstrip('@'). -/
def lstripAt (s : String) : String :=
  ⟨s.data.dropWhile (fun c => c = '@')⟩

/-- Source lines 89-102: the error message of the TooManyRequests handler.
Python's `if reset_time:` on the converted integer is false both for a
missing header and for the integer 0. -/
def rate_limit_error_msg (now : Int) (reset : Option Int) : String :=
  let generic := "Twitter API rate limit exceeded. Please wait 15 minutes and try again."
  match reset with
  | none => generic
  | some r =>
    if r = 0 then generic
    else
      let wait := r - now
      if 0 < wait then
        "Twitter API rate limit exceeded. Please wait " ++ toString wait ++
          " seconds and try again."
      else generic

/-- The failure dict shared by all exception handlers (success False,
empty tweets, user_info None). -/
def errResult (msg : String) : FetchResult :=
  ⟨false, some msg, [], none, none⟩

/-- Source lines 110-116: the tweepy.Unauthorized message. -/
def unauthorizedMsg : String :=
  "Twitter API authentication failed. The Bearer Token needs to be from a Twitter Developer App attached to a Project. Please check your credentials in the Twitter Developer Portal."

/-- Source lines 117-123: the tweepy.Forbidden message. -/
def forbiddenMsg : String :=
  "Twitter API access forbidden. The Bearer Token needs to be from a Twitter Developer App attached to a Project. Please check your Twitter Developer Portal settings."

/-- Source lines 35-130: TwitterInsightAgent.get_user_tweets.  `now` is
`int(time.time())` at the moment the TooManyRequests handler runs. -/
def get_user_tweets (client : TwitterClient) (now : Int) (username : String) :
    FetchResult :=
  let clean_username := lstripAt username
  match client.get_user clean_username with
  | .tooManyRequests reset => errResult (rate_limit_error_msg now reset)
  | .unauthorized => errResult unauthorizedMsg
  | .forbidden => errResult forbiddenMsg
  | .excn msg => errResult ("Error fetching tweets: " ++ msg)
  | .ok none =>
    ⟨false,
      some ("User '@" ++ clean_username ++
        "' not found. Please check the username and try again."),
      [], none, none⟩
  | .ok (some user) =>
    if user.protectedFlag.getD false then
      ⟨false,
        some ("Account '@" ++ clean_username ++
          "' is private/protected. Cannot access tweets."),
        [], some user, none⟩
    else
      match client.get_users_tweets user.id 5 with
      | .tooManyRequests reset => errResult (rate_limit_error_msg now reset)
      | .unauthorized => errResult unauthorizedMsg
      | .forbidden => errResult forbiddenMsg
      | .excn msg => errResult ("Error fetching tweets: " ++ msg)
      | .ok data =>
        let tweets := data.getD []
        ⟨true, none, tweets, some user, some tweets.length⟩

/-! ## Concrete collaborators used by the witnesses -/

/-- Endpoint that is rate limited twice and then succeeds. -/
def epTwice429 : Nat → CompletionOutcome := fun i =>
  if i = 0 then .httpResp 429 [] "rate limited"
  else if i = 1 then .httpResp 429 [] "rate limited"
  else .httpResp 200 ["  1. Insight  "] "ok"

/-- Endpoint that is rate limited on every attempt. -/
def epAlways429 : Nat → CompletionOutcome := fun _ => .httpResp 429 [] "rate limited"

/-- Endpoint that times out on every attempt. -/
def epAlwaysTimeout : Nat → CompletionOutcome := fun _ => .timeout

/-- Endpoint that answers 500 with a body. -/
def epServerError : Nat → CompletionOutcome := fun _ =>
  .httpResp 500 [] "Internal Server Error"

/-! ## Claims about the insight generator -/

/-- C1: if the completion endpoint returns HTTP 429 on the first two
attempts and HTTP 200 on the third, then for every non-empty tweet list
generate_insights returns the trimmed text of the first completion choice
of the successful response and performs exactly two sleeps, of 1 then 2
time units. -/
theorem C1_retry_then_success (ep : Nat → CompletionOutcome)
    (ch0 ch1 rest : List String) (b0 b1 b2 t : String)
    (tweets : List String) (n : Nat)
    (h0 : ep 0 = CompletionOutcome.httpResp 429 ch0 b0)
    (h1 : ep 1 = CompletionOutcome.httpResp 429 ch1 b1)
    (h2 : ep 2 = CompletionOutcome.httpResp 200 (t :: rest) b2)
    (ht : tweets ≠ []) :
    (generate_insights ep tweets n).output = t.trim ∧
    (generate_insights ep tweets n).sleeps = [1, 2] := by
  obtain ⟨a, as, rfl⟩ : ∃ a as, tweets = a :: as := by
    cases tweets with
    | nil => exact absurd rfl ht
    | cons a as => exact ⟨a, as, rfl⟩
  simp [generate_insights, genLoop, h0, h1, h2]

/-- C1 witness: the concrete endpoint `epTwice429` with one tweet. -/
theorem C1_retry_then_success_witness :
    (generate_insights epTwice429 ["hello"] 1).output = "  1. Insight  ".trim ∧
    (generate_insights epTwice429 ["hello"] 1).sleeps = [1, 2] :=
  C1_retry_then_success epTwice429 [] [] [] "rate limited" "rate limited" "ok"
    "  1. Insight  " ["hello"] 1 rfl rfl rfl (List.cons_ne_nil _ _)

/-- C2: if the completion endpoint returns HTTP 429 on every attempt, then
for every non-empty tweet list generate_insights makes exactly 3 attempts,
sleeps exactly twice (1 then 2 time units), and returns the fixed busy
message instead of raising. -/
theorem C2_retry_exhaustion (ep : Nat → CompletionOutcome)
    (ch : Nat → List String) (b : Nat → String)
    (tweets : List String) (n : Nat)
    (h : ∀ i, ep i = CompletionOutcome.httpResp 429 (ch i) (b i))
    (ht : tweets ≠ []) :
    (generate_insights ep tweets n).output =
      "AI service is currently busy. Please try again in a few minutes." ∧
    (generate_insights ep tweets n).requests.length = 3 ∧
    (generate_insights ep tweets n).sleeps = [1, 2] := by
  obtain ⟨a, as, rfl⟩ : ∃ a as, tweets = a :: as := by
    cases tweets with
    | nil => exact absurd rfl ht
    | cons a as => exact ⟨a, as, rfl⟩
  simp [generate_insights, genLoop, h 0, h 1, h 2]

/-- C2 witness: the concrete endpoint `epAlways429` with one tweet. -/
theorem C2_retry_exhaustion_witness :
    (generate_insights epAlways429 ["hello"] 1).output =
      "AI service is currently busy. Please try again in a few minutes." ∧
    (generate_insights epAlways429 ["hello"] 1).requests.length = 3 ∧
    (generate_insights epAlways429 ["hello"] 1).sleeps = [1, 2] :=
  C2_retry_exhaustion epAlways429 (fun _ => []) (fun _ => "rate limited")
    ["hello"] 1 (fun _ => rfl) (List.cons_ne_nil _ _)

/-- C4: any status other than 200 and 429 on the first attempt fails
immediately: one attempt, no sleep, and an error string embedding the
status code and the response body. -/
theorem C4_fatal_status (ep : Nat → CompletionOutcome)
    (s : Nat) (ch : List String) (b : String)
    (tweets : List String) (n : Nat)
    (h0 : ep 0 = CompletionOutcome.httpResp s ch b)
    (hs200 : s ≠ 200) (hs429 : s ≠ 429) (ht : tweets ≠ []) :
    (generate_insights ep tweets n).output =
      "Error generating insights: " ++ toString s ++ " - " ++ b ∧
    (generate_insights ep tweets n).sleeps = [] ∧
    (generate_insights ep tweets n).requests.length = 1 := by
  obtain ⟨a, as, rfl⟩ : ∃ a as, tweets = a :: as := by
    cases tweets with
    | nil => exact absurd rfl ht
    | cons a as => exact ⟨a, as, rfl⟩
  simp [generate_insights, genLoop, h0, hs200, hs429]

/-- C4 witness: the concrete endpoint `epServerError` with one tweet. -/
theorem C4_fatal_status_witness :
    (generate_insights epServerError ["hello"] 1).output =
      "Error generating insights: " ++ toString 500 ++ " - " ++ "Internal Server Error" ∧
    (generate_insights epServerError ["hello"] 1).sleeps = [] ∧
    (generate_insights epServerError ["hello"] 1).requests.length = 1 :=
  C4_fatal_status epServerError 500 [] "Internal Server Error" ["hello"] 1 rfl
    (by decide) (by decide) (List.cons_ne_nil _ _)

/-- C9: on the empty tweet list generate_insights returns the fixed string
without contacting the endpoint or sleeping. -/
theorem C9_empty_tweets (ep : Nat → CompletionOutcome) (n : Nat) :
    generate_insights ep [] n =
      ⟨"No tweets available for analysis.", [], []⟩ := rfl

/-- Every request prompt recorded by the retry loop is the prompt it was
given: the loop rebuilds the same request body on every attempt. -/
theorem genLoop_requests_all (ep : Nat → CompletionOutcome) (prompt : String) (bd : Nat) :
    ∀ fuel attempt r, r ∈ (genLoop ep prompt bd attempt fuel).requests → r = prompt := by
  intro fuel
  induction fuel with
  | zero => intro attempt r hr; simp [genLoop] at hr
  | succ f ih =>
    intro attempt r hr
    unfold genLoop at hr
    split at hr
    case _ status choices body _ =>
      split at hr
      · split at hr <;> simp_all
      · split at hr
        · split at hr
          · simp only [List.mem_cons] at hr
            rcases hr with rfl | hr
            · rfl
            · exact ih (attempt + 1) r hr
          · simp_all
        · simp_all
    case _ =>
      split at hr
      · simp only [List.mem_cons] at hr
        rcases hr with rfl | hr
        · rfl
        · exact ih (attempt + 1) r hr
      · simp_all
    case _ m =>
      split at hr
      · simp only [List.mem_cons] at hr
        rcases hr with rfl | hr
        · rfl
        · exact ih (attempt + 1) r hr
      · simp_all
    case _ m => simp_all

/-- With at least one iteration of fuel the retry loop sends at least one
request. -/
theorem genLoop_requests_ne_nil (ep : Nat → CompletionOutcome) (prompt : String)
    (bd : Nat) (f attempt : Nat) :
    (genLoop ep prompt bd attempt (f + 1)).requests ≠ [] := by
  unfold genLoop
  split
  case _ status choices body _ =>
    split
    · split <;> simp
    · split
      · split <;> simp
      · simp
  case _ => split <;> simp
  case _ m => split <;> simp
  case _ m => simp

/-- C8: two generate_insights calls with identical inputs build
character-for-character identical prompt bodies — every request either call
sends is exactly `build_prompt tweets n` — and each call issues at least
one completion request of its own (no caching of a prior result). -/
theorem C8_idempotent_prompt (ep1 ep2 : Nat → CompletionOutcome)
    (tweets : List String) (n : Nat) (ht : tweets ≠ []) :
    (∀ r ∈ (generate_insights ep1 tweets n).requests, r = build_prompt tweets n) ∧
    (∀ r ∈ (generate_insights ep2 tweets n).requests, r = build_prompt tweets n) ∧
    1 ≤ (generate_insights ep1 tweets n).requests.length ∧
    1 ≤ (generate_insights ep2 tweets n).requests.length := by
  obtain ⟨a, as, rfl⟩ : ∃ a as, tweets = a :: as := by
    cases tweets with
    | nil => exact absurd rfl ht
    | cons a as => exact ⟨a, as, rfl⟩
  refine ⟨?_, ?_, ?_, ?_⟩
  · intro r hr
    exact genLoop_requests_all ep1 (build_prompt (a :: as) n) 1 3 0 r hr
  · intro r hr
    exact genLoop_requests_all ep2 (build_prompt (a :: as) n) 1 3 0 r hr
  · have := genLoop_requests_ne_nil ep1 (build_prompt (a :: as) n) 1 2 0
    simpa [generate_insights, Nat.one_le_iff_ne_zero, List.length_eq_zero] using this
  · have := genLoop_requests_ne_nil ep2 (build_prompt (a :: as) n) 1 2 0
    simpa [generate_insights, Nat.one_le_iff_ne_zero, List.length_eq_zero] using this

/-- C8 witness: two concrete calls on the same one-tweet input. -/
theorem C8_idempotent_prompt_witness :
    (∀ r ∈ (generate_insights epTwice429 ["hello"] 1).requests,
      r = build_prompt ["hello"] 1) ∧
    (∀ r ∈ (generate_insights epAlways429 ["hello"] 1).requests,
      r = build_prompt ["hello"] 1) ∧
    1 ≤ (generate_insights epTwice429 ["hello"] 1).requests.length ∧
    1 ≤ (generate_insights epAlways429 ["hello"] 1).requests.length :=
  C8_idempotent_prompt epTwice429 epAlways429 ["hello"] 1 (List.cons_ne_nil _ _)

/-- C3 counterexample: with every attempt a network timeout, the generator
returns "Request timed out. Please try again.", which is not the fixed
busy message of the 429-exhaustion case, contrary to the claim. -/
theorem C3_counterexample :
    (generate_insights epAlwaysTimeout ["hello"] 1).output =
      "Request timed out. Please try again." ∧
    (generate_insights epAlwaysTimeout ["hello"] 1).output ≠
      "AI service is currently busy. Please try again in a few minutes." := by
  have h : (generate_insights epAlwaysTimeout ["hello"] 1).output =
      "Request timed out. Please try again." := rfl
  refine ⟨h, ?_⟩
  rw [h]
  decide

/-- C3 amended: if every attempt ends in a network timeout or connection
error, the generator retries with backoff (sleeps 1 then 2 time units,
3 attempts) and then returns — not raises — a fixed terminal message:
"Request timed out. Please try again." when the last attempt timed out, or
"Error connecting to AI service: <msg>" when it was a connection error. -/
theorem C3_network_exhaustion (ep : Nat → CompletionOutcome)
    (tweets : List String) (n : Nat)
    (h : ∀ i, i < 3 → ep i = CompletionOutcome.timeout ∨
      ∃ m, ep i = CompletionOutcome.connError m)
    (ht : tweets ≠ []) :
    (generate_insights ep tweets n).sleeps = [1, 2] ∧
    (generate_insights ep tweets n).requests.length = 3 ∧
    ((ep 2 = CompletionOutcome.timeout ∧
        (generate_insights ep tweets n).output =
          "Request timed out. Please try again.") ∨
      (∃ m, ep 2 = CompletionOutcome.connError m ∧
        (generate_insights ep tweets n).output =
          "Error connecting to AI service: " ++ m)) := by
  obtain ⟨a, as, rfl⟩ : ∃ a as, tweets = a :: as := by
    cases tweets with
    | nil => exact absurd rfl ht
    | cons a as => exact ⟨a, as, rfl⟩
  rcases h 0 (by decide) with h0 | ⟨m0, h0⟩ <;>
    rcases h 1 (by decide) with h1 | ⟨m1, h1⟩ <;>
      rcases h 2 (by decide) with h2 | ⟨m2, h2⟩ <;>
        simp [generate_insights, genLoop, h0, h1, h2]

/-- C3 amended witness: the concrete all-timeout endpoint. -/
theorem C3_network_exhaustion_witness :
    (generate_insights epAlwaysTimeout ["hi"] 1).sleeps = [1, 2] ∧
    (generate_insights epAlwaysTimeout ["hi"] 1).requests.length = 3 ∧
    ((epAlwaysTimeout 2 = CompletionOutcome.timeout ∧
        (generate_insights epAlwaysTimeout ["hi"] 1).output =
          "Request timed out. Please try again.") ∨
      (∃ m, epAlwaysTimeout 2 = CompletionOutcome.connError m ∧
        (generate_insights epAlwaysTimeout ["hi"] 1).output =
          "Error connecting to AI service: " ++ m)) :=
  C3_network_exhaustion epAlwaysTimeout ["hi"] 1 (fun _ _ => Or.inl rfl)
    (List.cons_ne_nil _ _)

/-! ## Claims about the prompt -/

section
set_option maxRecDepth 200000

/-- C7: for the tweets ["Great day!", "Launch went well", "Feedback
welcome"] with count 3, the prompt contains the three tweet texts on lines
prefixed "Tweet 1:", "Tweet 2:", "Tweet 3:", and contains the instruction
to produce exactly 3 numbered insights. -/
theorem C7_prompt_scenario :
    strContains (build_prompt ["Great day!", "Launch went well", "Feedback welcome"] 3)
      "\nTweet 1: Great day!\n" = true ∧
    strContains (build_prompt ["Great day!", "Launch went well", "Feedback welcome"] 3)
      "\nTweet 2: Launch went well\n" = true ∧
    strContains (build_prompt ["Great day!", "Launch went well", "Feedback welcome"] 3)
      "\nTweet 3: Feedback welcome\n" = true ∧
    strContains (build_prompt ["Great day!", "Launch went well", "Feedback welcome"] 3)
      "generate exactly 3 concise, actionable insights" = true ∧
    strContains (build_prompt ["Great day!", "Launch went well", "Feedback welcome"] 3)
      "Format your response as a numbered list (1-3)" = true ∧
    strContains (build_prompt ["Great day!", "Launch went well", "Feedback welcome"] 3)
      "Number each insight (1, 2, 3)" = true := by
  decide

end

/-! ## Claims about the feed fetcher -/

/-- A prefix `pat` occurring in `s2` occurs in `s1 ++ s2` as well. -/
theorem charsContains_append_right (pat s2 : List Char)
    (h : charsContains pat s2 = true) :
    ∀ s1, charsContains pat (s1 ++ s2) = true := by
  intro s1
  induction s1 with
  | nil => simpa using h
  | cons c t ih =>
    show charsContains pat (c :: (t ++ s2)) = true
    unfold charsContains
    rw [Bool.or_eq_true]
    exact Or.inr ih

/-- A substring of `b` is a substring of `a ++ b`. -/
theorem strContains_append_right (a b pat : String)
    (h : strContains b pat = true) : strContains (a ++ b) pat = true := by
  unfold strContains at h ⊢
  rw [String.data_append]
  exact charsContains_append_right pat.data b.data h a.data

/-- The rate-limit message as the amended claim describes it: the computed
wait `reset - now` is reported exactly when a reset timestamp is available,
nonzero, and the wait is positive; otherwise the generic 15-minute text. -/
def rate_limit_msg_spec (now : Int) (reset : Option Int) : String :=
  match reset with
  | some r =>
    if r ≠ 0 ∧ 0 < r - now then
      "Twitter API rate limit exceeded. Please wait " ++ toString (r - now) ++
        " seconds and try again."
    else "Twitter API rate limit exceeded. Please wait 15 minutes and try again."
  | none => "Twitter API rate limit exceeded. Please wait 15 minutes and try again."

/-- The source's rate-limit message coincides with the amended description. -/
theorem rate_limit_error_msg_eq_spec (now : Int) (reset : Option Int) :
    rate_limit_error_msg now reset = rate_limit_msg_spec now reset := by
  cases reset with
  | none => rfl
  | some r =>
    by_cases h0 : r = 0
    · subst h0
      simp [rate_limit_error_msg, rate_limit_msg_spec]
    · by_cases hp : 0 < r - now
      · simp [rate_limit_error_msg, rate_limit_msg_spec, h0, hp]
      · simp [rate_limit_error_msg, rate_limit_msg_spec, h0, hp]

/-- A client whose user lookup raises TooManyRequests with the given
x-rate-limit-reset header value. -/
def clientRL (reset : Option Int) : TwitterClient :=
  ⟨fun _ => FetchStep.tooManyRequests reset, fun _ _ => FetchStep.ok none⟩

/-- C5 counterexample: at reset = now = 1000 a reset timestamp is
available, yet the message is the generic 15-minute one and reports no
wait in seconds (the source only reports `reset - now` when positive). -/
theorem C5_counterexample :
    (get_user_tweets (clientRL (some 1000)) 1000 "alice").error =
      some "Twitter API rate limit exceeded. Please wait 15 minutes and try again." ∧
    strContains
      "Twitter API rate limit exceeded. Please wait 15 minutes and try again."
      "seconds" = false :=
  ⟨rfl, by decide⟩

/-- C5 amended: a rate-limited fetch returns success false with empty
tweets, and its message reports the wait `reset - now` in seconds exactly
when the reset timestamp is available, nonzero, and that wait is positive;
otherwise it is the generic 15-minute message (`rate_limit_msg_spec`). -/
theorem C5_rate_limit_message (client : TwitterClient) (now : Int)
    (username : String) (reset : Option Int)
    (h : client.get_user (lstripAt username) = FetchStep.tooManyRequests reset) :
    (get_user_tweets client now username).success = false ∧
    (get_user_tweets client now username).tweets = [] ∧
    (get_user_tweets client now username).error =
      some (rate_limit_msg_spec now reset) := by
  refine ⟨?_, ?_, ?_⟩ <;>
    simp [get_user_tweets, h, errResult, rate_limit_error_msg_eq_spec]

/-- C5 amended witness: reset 1530 at time 1000 (a positive 530-second wait). -/
theorem C5_rate_limit_message_witness :
    (get_user_tweets (clientRL (some 1530)) 1000 "alice").success = false ∧
    (get_user_tweets (clientRL (some 1530)) 1000 "alice").tweets = [] ∧
    (get_user_tweets (clientRL (some 1530)) 1000 "alice").error =
      some (rate_limit_msg_spec 1000 (some 1530)) :=
  C5_rate_limit_message (clientRL (some 1530)) 1000 "alice" (some 1530) rfl

/-- C6: for a handle that does not resolve the fetch fails with a message
mentioning "not found"; for a protected account it fails with a message
mentioning "private/protected"; in both cases the tweets are empty and the
result is independent of the tweet-listing operation (none is made). -/
theorem C6_not_found_and_protected
    (gu1 gu2 : String → FetchStep (Option UserInfo))
    (gt1 gt2 : Nat → Nat → FetchStep (Option (List String)))
    (now : Int) (username : String) (user : UserInfo)
    (hnf : gu1 (lstripAt username) = FetchStep.ok none)
    (hpr : gu2 (lstripAt username) = FetchStep.ok (some user))
    (hprot : user.protectedFlag.getD false = true) :
    ((get_user_tweets ⟨gu1, gt1⟩ now username).success = false ∧
      (get_user_tweets ⟨gu1, gt1⟩ now username).tweets = [] ∧
      (∃ e, (get_user_tweets ⟨gu1, gt1⟩ now username).error = some e ∧
        strContains e "not found" = true) ∧
      get_user_tweets ⟨gu1, gt1⟩ now username =
        get_user_tweets ⟨gu1, gt2⟩ now username) ∧
    ((get_user_tweets ⟨gu2, gt1⟩ now username).success = false ∧
      (get_user_tweets ⟨gu2, gt1⟩ now username).tweets = [] ∧
      (∃ e, (get_user_tweets ⟨gu2, gt1⟩ now username).error = some e ∧
        strContains e "private/protected" = true) ∧
      get_user_tweets ⟨gu2, gt1⟩ now username =
        get_user_tweets ⟨gu2, gt2⟩ now username) := by
  constructor
  · refine ⟨?_, ?_, ⟨"User '@" ++ lstripAt username ++
      "' not found. Please check the username and try again.", ?_, ?_⟩, ?_⟩
    · simp [get_user_tweets, hnf]
    · simp [get_user_tweets, hnf]
    · simp [get_user_tweets, hnf]
    · apply strContains_append_right
      decide
    · simp [get_user_tweets, hnf]
  · refine ⟨?_, ?_, ⟨"Account '@" ++ lstripAt username ++
      "' is private/protected. Cannot access tweets.", ?_, ?_⟩, ?_⟩
    · simp [get_user_tweets, hpr, hprot]
    · simp [get_user_tweets, hpr, hprot]
    · simp [get_user_tweets, hpr, hprot]
    · apply strContains_append_right
      decide
    · simp [get_user_tweets, hpr, hprot]

/-- User lookup that never resolves. -/
def guNotFound : String → FetchStep (Option UserInfo) := fun _ => FetchStep.ok none

/-- User lookup resolving to a protected account with id 42. -/
def guProtected : String → FetchStep (Option UserInfo) :=
  fun _ => FetchStep.ok (some ⟨42, some true⟩)

/-- Tweet listing with no data. -/
def gtEmpty : Nat → Nat → FetchStep (Option (List String)) :=
  fun _ _ => FetchStep.ok none

/-- Tweet listing returning one tweet. -/
def gtOne : Nat → Nat → FetchStep (Option (List String)) :=
  fun _ _ => FetchStep.ok (some ["x"])

/-- C6 witness: concrete unresolved and protected lookups for "@alice". -/
theorem C6_not_found_and_protected_witness :
    ((get_user_tweets ⟨guNotFound, gtEmpty⟩ 0 "@alice").success = false ∧
      (get_user_tweets ⟨guNotFound, gtEmpty⟩ 0 "@alice").tweets = [] ∧
      (∃ e, (get_user_tweets ⟨guNotFound, gtEmpty⟩ 0 "@alice").error = some e ∧
        strContains e "not found" = true) ∧
      get_user_tweets ⟨guNotFound, gtEmpty⟩ 0 "@alice" =
        get_user_tweets ⟨guNotFound, gtOne⟩ 0 "@alice") ∧
    ((get_user_tweets ⟨guProtected, gtEmpty⟩ 0 "@alice").success = false ∧
      (get_user_tweets ⟨guProtected, gtEmpty⟩ 0 "@alice").tweets = [] ∧
      (∃ e, (get_user_tweets ⟨guProtected, gtEmpty⟩ 0 "@alice").error = some e ∧
        strContains e "private/protected" = true) ∧
      get_user_tweets ⟨guProtected, gtEmpty⟩ 0 "@alice" =
        get_user_tweets ⟨guProtected, gtOne⟩ 0 "@alice") :=
  C6_not_found_and_protected guNotFound guProtected gtEmpty gtOne 0 "@alice"
    ⟨42, some true⟩ rfl rfl rfl

/-- C10: under a client that honors max_results, every successful fetch has
tweet_count equal to the length of the tweets list, at most 5 tweets (the
source requests max_results = 5), and no error field; every failed fetch
has an empty tweets list. -/
theorem C10_fetch_invariants (client : TwitterClient) (now : Int)
    (username : String)
    (hb : ∀ i m ts, client.get_users_tweets i m = FetchStep.ok (some ts) →
      ts.length ≤ m) :
    ((get_user_tweets client now username).success = true →
      (get_user_tweets client now username).tweet_count =
        some (get_user_tweets client now username).tweets.length ∧
      (get_user_tweets client now username).tweets.length ≤ 5 ∧
      (get_user_tweets client now username).error = none) ∧
    ((get_user_tweets client now username).success = false →
      (get_user_tweets client now username).tweets = []) := by
  cases hgu : client.get_user (lstripAt username) with
  | tooManyRequests reset => simp [get_user_tweets, hgu, errResult]
  | unauthorized => simp [get_user_tweets, hgu, errResult]
  | forbidden => simp [get_user_tweets, hgu, errResult]
  | excn m => simp [get_user_tweets, hgu, errResult]
  | ok data =>
    cases data with
    | none => simp [get_user_tweets, hgu]
    | some user =>
      by_cases hp : user.protectedFlag.getD false
      · simp [get_user_tweets, hgu, hp]
      · cases hgt : client.get_users_tweets user.id 5 with
        | tooManyRequests reset => simp [get_user_tweets, hgu, hgt, hp, errResult]
        | unauthorized => simp [get_user_tweets, hgu, hgt, hp, errResult]
        | forbidden => simp [get_user_tweets, hgu, hgt, hp, errResult]
        | excn m => simp [get_user_tweets, hgu, hgt, hp, errResult]
        | ok d =>
          cases d with
          | none => simp [get_user_tweets, hgu, hgt, hp]
          | some ts =>
            have hle := hb user.id 5 ts hgt
            simp [get_user_tweets, hgu, hgt, hp, hle]

/-- A client resolving every handle to a public user whose tweet listing
returns exactly max_results tweets. -/
def clientPublic : TwitterClient :=
  ⟨fun _ => FetchStep.ok (some ⟨7, some false⟩),
   fun _ m => FetchStep.ok (some (List.replicate m "tweet"))⟩

/-- C10 witness: the concrete client `clientPublic`, which honors
max_results. -/
theorem C10_fetch_invariants_witness :
    ((get_user_tweets clientPublic 0 "bob").success = true →
      (get_user_tweets clientPublic 0 "bob").tweet_count =
        some (get_user_tweets clientPublic 0 "bob").tweets.length ∧
      (get_user_tweets clientPublic 0 "bob").tweets.length ≤ 5 ∧
      (get_user_tweets clientPublic 0 "bob").error = none) ∧
    ((get_user_tweets clientPublic 0 "bob").success = false →
      (get_user_tweets clientPublic 0 "bob").tweets = []) :=
  C10_fetch_invariants clientPublic 0 "bob" (by
    intro i m ts h
    simp only [clientPublic] at h
    injection h with h1
    injection h1 with h2
    rw [← h2, List.length_replicate])

